import Mathlib

/-!
Shallow embedding of the RP2040 HAL UART peripheral driver
(`rp2040-hal/src/uart/peripheral.rs`) together with proofs about its
baud-rate divider computation, register-programming sequence, format
encoding, state transitions, split/join and FIFO writer semantics.

Machine integers (`u32`, `u16`) are embedded as `Nat` with explicit
`% 2 ^ 32` / `% 65536` wrapping wherever the Rust code can overflow or
truncate; fallible Rust code is embedded as explicit sum types, with a
dedicated constructor for a Rust panic (division by zero).  Register
writes are recorded both as updates to a register file and as an
ordered trace of write events.
-/

set_option autoImplicit false

namespace Uart

/-- The driver's error type.  `ok_or(Error::BadArgument)` in the source
constructs it with no arguments: the variant carries no data. -/
inductive Error where
  | BadArgument
deriving DecidableEq

/-- Outcome of a Rust computation that may return `Err` or panic
(in Rust, integer division by zero panics in every build profile). -/
inductive RResult (α : Type) where
  | ok : α → RResult α
  | err : Error → RResult α
  | panicked : RResult α
deriving DecidableEq

/-- `u32::checked_mul`: `none` exactly when the product overflows `u32`. -/
def checked_mul (a b : Nat) : Option Nat :=
  if a * b < 2 ^ 32 then some (a * b) else none

/-- `u32::checked_div`: `none` exactly when the divisor is zero. -/
def checked_div (a b : Nat) : Option Nat :=
  if b = 0 then none else some (a / b)

/-- `calculate_baudrate_dividers` from the source: computes
`baudrate_div = frequency.checked_mul(8)?.checked_div(wanted_baudrate)?`
and then matches on `(baudrate_div >> 7, ((baudrate_div & 0x7F) + 1) / 2)`,
clamping to `(1, 0)` when the integer part is zero and to `(65535, 0)`
when it is at least `65535`.  The `as u16` casts of the last arm are
embedded as `% 65536` truncation. -/
def calculate_baudrate_dividers (wanted_baudrate frequency : Nat) : Except Error (Nat × Nat) :=
  match checked_mul frequency 8 with
  | none => Except.error Error.BadArgument
  | some r =>
      match checked_div r wanted_baudrate with
      | none => Except.error Error.BadArgument
      | some baudrate_div =>
          Except.ok
            (if baudrate_div >>> 7 = 0 then (1, 0)
             else if 65535 ≤ baudrate_div >>> 7 then (65535, 0)
             else ((baudrate_div >>> 7) % 65536, (((baudrate_div &&& 0x7F) + 1) / 2) % 65536))

/-- The `UARTLCR_H` (line control) fields the driver touches: FIFO enable,
parity enable, even parity select, two stop bits, word length code. -/
structure LCRH where
  fen : Bool
  pen : Bool
  eps : Bool
  stp2 : Bool
  wlen : Nat
deriving DecidableEq

/-- The `UARTCR` (control) fields the driver touches. -/
structure CR where
  uarten : Bool
  txe : Bool
  rxe : Bool
  ctsen : Bool
  rtsen : Bool
deriving DecidableEq

/-- The `UARTDMACR` (DMA control) fields the driver touches. -/
structure DMACR where
  txdmae : Bool
  rxdmae : Bool
deriving DecidableEq

/-- The register file of one UART instance, restricted to the registers
the embedded code writes. -/
structure Device where
  uartibrd : Nat
  uartfbrd : Nat
  uartlcr_h : LCRH
  uartcr : CR
  uartdmacr : DMACR
deriving DecidableEq

/-- One hardware register write, in program order. -/
inductive WriteEvent where
  | ibrd : Nat → WriteEvent
  | fbrd : Nat → WriteEvent
  | lcrh : LCRH → WriteEvent
  | cr : CR → WriteEvent
  | dmacr : DMACR → WriteEvent
deriving DecidableEq

/-- `configure_baudrate` from the source: computes the dividers, writes
the integer then the fractional divider register, performs the dummy
`uartlcr_h.modify(|_, w| w)` write-back (recorded as a write of the value
the register currently holds), and returns
`Baud((4 * frequency) / (64 * baud_div_int + baud_div_frac) as u32)`.
The divisor is computed in `u16` arithmetic, which wraps modulo `65536`
in release builds; a zero divisor makes the division panic. -/
def configure_baudrate (device : Device) (wanted_baudrate frequency : Nat) :
    RResult (Nat × Device × List WriteEvent) :=
  match calculate_baudrate_dividers wanted_baudrate frequency with
  | Except.error e => RResult.err e
  | Except.ok (baud_div_int, baud_div_frac) =>
      let device2 : Device := { device with uartibrd := baud_div_int, uartfbrd := baud_div_frac }
      let events : List WriteEvent :=
        [WriteEvent.ibrd baud_div_int, WriteEvent.fbrd baud_div_frac,
         WriteEvent.lcrh device2.uartlcr_h]
      let divisor : Nat := (64 * baud_div_int + baud_div_frac) % 65536
      if divisor = 0 then RResult.panicked
      else RResult.ok ((4 * frequency) / divisor, device2, events)

/-- The effective baud rate as the specification states it: exact
integer arithmetic, no fixed-width truncation of the divisor. -/
def effective_baud_spec (frequency int_div frac_div : Nat) : Nat :=
  (4 * frequency) / (64 * int_div + frac_div)

/-- `DataBits` as used by `set_format`. -/
inductive DataBits where
  | Five
  | Six
  | Seven
  | Eight
deriving DecidableEq

/-- `StopBits` as used by `set_format`. -/
inductive StopBits where
  | One
  | Two
deriving DecidableEq

/-- `Parity` as used by `set_format`. -/
inductive Parity where
  | Odd
  | Even
deriving DecidableEq

/-- `set_format` from the source, acting on the line-control writer:
parity first (`Some` sets `pen` and selects `eps`, `None` clears `pen`),
then the two-bit word-length code, then the stop-bit flag. -/
def set_format (w : LCRH) (data_bits : DataBits) (stop_bits : StopBits)
    (parity : Option Parity) : LCRH :=
  let w :=
    match parity with
    | some Parity.Odd => { w with pen := true, eps := false }
    | some Parity.Even => { w with pen := true, eps := true }
    | none => { w with pen := false }
  let w :=
    { w with wlen :=
        match data_bits with
        | DataBits.Five => 0
        | DataBits.Six => 1
        | DataBits.Seven => 2
        | DataBits.Eight => 3 }
  match stop_bits with
  | StopBits.One => { w with stp2 := false }
  | StopBits.Two => { w with stp2 := true }

/-- `UartConfig`: requested baud rate plus frame format. -/
structure UartConfig where
  baudrate : Nat
  data_bits : DataBits
  stop_bits : StopBits
  parity : Option Parity
deriving DecidableEq

/-- The pin-capability constants `P::TX_ENABLED`, `P::RX_ENABLED`,
`P::CTS_ENABLED`, `P::RTS_ENABLED` of a `ValidUartPinout` instance. -/
structure Pinout where
  tx_enabled : Bool
  rx_enabled : Bool
  cts_enabled : Bool
  rts_enabled : Bool
deriving DecidableEq

/-- The compile-time state tag of a peripheral handle. -/
inductive UState where
  | Disabled
  | Enabled
deriving DecidableEq

/-- `UartPeripheral<S, D, P>`: owns the register file, the pins, the
configuration and the effective baud rate; `S` is a phantom tag. -/
structure UartPeripheral (S : UState) where
  device : Device
  pins : Pinout
  config : UartConfig
  effective_baudrate : Nat
deriving DecidableEq

/-- `free`: releases the underlying device and pins, in either state. -/
def free {S : UState} (self : UartPeripheral S) : Device × Pinout :=
  (self.device, self.pins)

/-- `enable` from the source: frees the handle into its parts, runs
`configure_baudrate` (propagating its error or panic), then writes the
line-control register (FIFO enable plus `set_format` over the reset
value), the control register (UART enable plus the four pin-gated
enables) and the DMA control register (both request lines set). -/
def enable (self : UartPeripheral UState.Disabled) (config : UartConfig) (frequency : Nat) :
    RResult (UartPeripheral UState.Enabled × List WriteEvent) :=
  let device := (free self).1
  let pins := (free self).2
  match configure_baudrate device config.baudrate frequency with
  | RResult.err e => RResult.err e
  | RResult.panicked => RResult.panicked
  | RResult.ok (effective_baudrate, device2, events) =>
      let lcrh_value : LCRH :=
        set_format { fen := true, pen := false, eps := false, stp2 := false, wlen := 0 }
          config.data_bits config.stop_bits config.parity
      let cr_value : CR :=
        { uarten := true, txe := pins.tx_enabled, rxe := pins.rx_enabled,
          ctsen := pins.cts_enabled, rtsen := pins.rts_enabled }
      let dmacr_value : DMACR := { txdmae := true, rxdmae := true }
      let device3 : Device :=
        { device2 with uartlcr_h := lcrh_value, uartcr := cr_value, uartdmacr := dmacr_value }
      RResult.ok
        ({ device := device3, pins := pins, config := config,
           effective_baudrate := effective_baudrate },
         events ++ [WriteEvent.lcrh lcrh_value, WriteEvent.cr cr_value,
                    WriteEvent.dmacr dmacr_value])

/-- The `Reader` half produced by `split`: it owns the register file,
the pins, the configuration and the effective baud rate. -/
structure Reader where
  device : Device
  pins : Pinout
  config : UartConfig
  effective_baudrate : Nat
deriving DecidableEq

/-- The `Writer` half produced by `split`: it holds only a raw pointer
to the hardware block (`&*UART0::ptr()`), embedded as the address. -/
structure Writer where
  device_ptr : Nat
deriving DecidableEq

/-- Base address of the UART0 register block on the RP2040. -/
def UART0_ptr : Nat := 0x40034000

/-- `split` from the source: moves every field of the handle into the
`Reader` and gives the `Writer` a fresh pointer to the same block. -/
def split (self : UartPeripheral UState.Enabled) : Reader × Writer :=
  ({ device := self.device, pins := self.pins, config := self.config,
     effective_baudrate := self.effective_baudrate },
   { device_ptr := UART0_ptr })

/-- `join` from the source: rebuilds the `Enabled` handle from the
reader's fields; the writer argument is discarded (`let _ = writer`). -/
def join (reader : Reader) (_writer : Writer) : UartPeripheral UState.Enabled :=
  { device := reader.device, pins := reader.pins, config := reader.config,
    effective_baudrate := reader.effective_baudrate }

/-! ### Helper lemmas about the divider computation -/

theorem frac_part_le (raw : Nat) : ((raw &&& 0x7F) + 1) / 2 ≤ 64 := by
  have h : raw &&& 0x7F ≤ 0x7F := Nat.and_le_right
  omega

/-- Closed form of `calculate_baudrate_dividers` when neither checked
operation fails. -/
theorem calc_ok_eq (F R : Nat) (h1 : F * 8 < 2 ^ 32) (h2 : 0 < R) :
    calculate_baudrate_dividers R F =
      Except.ok
        (if (F * 8 / R) >>> 7 = 0 then (1, 0)
         else if 65535 ≤ (F * 8 / R) >>> 7 then (65535, 0)
         else ((F * 8 / R) >>> 7, (((F * 8 / R) &&& 0x7F) + 1) / 2)) := by
  have hR : ¬R = 0 := by omega
  have hf := frac_part_le (F * 8 / R)
  unfold calculate_baudrate_dividers checked_mul checked_div
  rw [if_pos h1]
  simp only [if_neg hR]
  show Except.ok
      (if (F * 8 / R) >>> 7 = 0 then (1, 0)
       else if 65535 ≤ (F * 8 / R) >>> 7 then (65535, 0)
       else (((F * 8 / R) >>> 7) % 65536, ((((F * 8 / R) &&& 0x7F) + 1) / 2) % 65536)) = _
  split_ifs with hz hm
  · rfl
  · rfl
  · have hip : (F * 8 / R) >>> 7 < 65536 := by omega
    have hfp : (((F * 8 / R) &&& 0x7F) + 1) / 2 < 65536 := by omega
    rw [Nat.mod_eq_of_lt hip, Nat.mod_eq_of_lt hfp]

/-- `calculate_baudrate_dividers` fails (necessarily with `BadArgument`)
exactly when `frequency * 8` overflows `u32` or the baud rate is zero. -/
theorem calc_err_iff (F R : Nat) :
    calculate_baudrate_dividers R F = Except.error Error.BadArgument ↔
      2 ^ 32 ≤ F * 8 ∨ R = 0 := by
  by_cases h1 : F * 8 < 2 ^ 32
  · by_cases h2 : R = 0
    · have hL : calculate_baudrate_dividers R F = Except.error Error.BadArgument := by
        unfold calculate_baudrate_dividers checked_mul checked_div
        rw [if_pos h1]
        simp only [if_pos h2]
      rw [hL]
      simp [h2]
    · rw [calc_ok_eq F R h1 (Nat.pos_of_ne_zero h2)]
      constructor
      · intro hcontra
        simp at hcontra
      · rintro (hc | hc)
        · omega
        · exact absurd hc h2
  · have hL : calculate_baudrate_dividers R F = Except.error Error.BadArgument := by
      unfold calculate_baudrate_dividers checked_mul
      rw [if_neg h1]
    rw [hL]
    constructor
    · intro _
      omega
    · intro _
      rfl

/-! ### Helper lemmas about `configure_baudrate` and `enable` -/

/-- Closed form of `configure_baudrate` when the divider computation
succeeds and the (u16-wrapped) divisor is nonzero. -/
theorem configure_spec (device : Device) (R F i f : Nat)
    (hc : calculate_baudrate_dividers R F = Except.ok (i, f))
    (hd : ¬(64 * i + f) % 65536 = 0) :
    configure_baudrate device R F =
      RResult.ok ((4 * F) / ((64 * i + f) % 65536),
        { device with uartibrd := i, uartfbrd := f },
        [WriteEvent.ibrd i, WriteEvent.fbrd f, WriteEvent.lcrh device.uartlcr_h]) := by
  unfold configure_baudrate
  rw [hc]
  simp only [if_neg hd]

/-- `configure_baudrate` panics when the dividers compute but the
u16-wrapped divisor is zero. -/
theorem configure_panic (device : Device) (R F i f : Nat)
    (hc : calculate_baudrate_dividers R F = Except.ok (i, f))
    (hd : (64 * i + f) % 65536 = 0) :
    configure_baudrate device R F = RResult.panicked := by
  unfold configure_baudrate
  rw [hc]
  simp only [if_pos hd]

/-- `configure_baudrate` propagates the divider computation's error. -/
theorem configure_err (device : Device) (R F : Nat)
    (hc : calculate_baudrate_dividers R F = Except.error Error.BadArgument) :
    configure_baudrate device R F = RResult.err Error.BadArgument := by
  unfold configure_baudrate
  rw [hc]

/-- `enable` returns `Err(BadArgument)` whenever the divider
computation's preconditions are violated. -/
theorem enable_err_of_cond (self : UartPeripheral UState.Disabled) (config : UartConfig)
    (frequency : Nat) (h : 2 ^ 32 ≤ frequency * 8 ∨ config.baudrate = 0) :
    enable self config frequency = RResult.err Error.BadArgument := by
  have hc : calculate_baudrate_dividers config.baudrate frequency =
      Except.error Error.BadArgument :=
    (calc_err_iff frequency config.baudrate).mpr h
  simp only [enable, free]
  rw [configure_err self.device config.baudrate frequency hc]

/-- `enable` returns `Err(BadArgument)` exactly when `frequency * 8`
overflows `u32` or the requested baud rate is zero. -/
theorem enable_err_iff (self : UartPeripheral UState.Disabled) (config : UartConfig)
    (frequency : Nat) :
    enable self config frequency = RResult.err Error.BadArgument ↔
      2 ^ 32 ≤ frequency * 8 ∨ config.baudrate = 0 := by
  constructor
  · intro h
    by_contra hcond
    obtain ⟨hA, hB⟩ := not_or.mp hcond
    have h1 : frequency * 8 < 2 ^ 32 := by omega
    have h2 : 0 < config.baudrate := Nat.pos_of_ne_zero hB
    obtain ⟨⟨i, f⟩, hc⟩ : ∃ p, calculate_baudrate_dividers config.baudrate frequency =
        Except.ok p := ⟨_, calc_ok_eq frequency config.baudrate h1 h2⟩
    by_cases hd : (64 * i + f) % 65536 = 0
    · have := configure_panic self.device config.baudrate frequency i f hc hd
      simp only [enable, free] at h
      rw [this] at h
      simp at h
    · have := configure_spec self.device config.baudrate frequency i f hc hd
      simp only [enable, free] at h
      rw [this] at h
      simp at h
  · exact enable_err_of_cond self config frequency

/-! ### FIFO writer engine (modelled from the spec) -/

/-- The `nb::Result` of a write: `Ok(remaining)` or `WouldBlock`
(the error type is `Infallible`, so `WouldBlock` is the only error). -/
inductive NbResult (α : Type) where
  | ok : α → NbResult α
  | wouldBlock : NbResult α
deriving DecidableEq

/-- Modelled from the spec: the FIFO writer engine
(`super::writer::write_raw`, delegated to by
`UartPeripheral::write_raw`) is not under `src/`.  Per the spec it
"writes bytes into the TX FIFO one at a time while the TX-FIFO-full
status flag is clear; stops at the first full indication.  If zero
bytes were written before hitting full, reports WouldBlock ...  If at
least one byte was written ..., reports success with the unwritten
remainder of the slice."  The TX FIFO is abstracted as its number of
free slots; the loop counts the bytes written so far. -/
def write_raw_loop (fifo_free : Nat) (data : List Nat) (bytes_written : Nat) :
    NbResult (List Nat) :=
  match data with
  | [] => NbResult.ok []
  | c :: rest =>
      if fifo_free = 0 then
        if bytes_written = 0 then NbResult.wouldBlock else NbResult.ok (c :: rest)
      else
        write_raw_loop (fifo_free - 1) rest (bytes_written + 1)

/-- Modelled from the spec: entry point of the writer loop, starting
with zero bytes written. -/
def write_raw (fifo_free : Nat) (data : List Nat) : NbResult (List Nat) :=
  write_raw_loop fifo_free data 0

/-- Closed form of the writer loop: it blocks only when the FIFO is
full, the buffer is nonempty and nothing has been written yet;
otherwise it succeeds with the suffix that did not fit. -/
theorem write_raw_loop_eq (data : List Nat) :
    ∀ fifo_free bytes_written,
      write_raw_loop fifo_free data bytes_written =
        if fifo_free = 0 ∧ data ≠ [] ∧ bytes_written = 0 then NbResult.wouldBlock
        else NbResult.ok (List.drop fifo_free data) := by
  induction data with
  | nil =>
      intro fifo_free bytes_written
      simp [write_raw_loop]
  | cons c rest ih =>
      intro fifo_free bytes_written
      cases fifo_free with
      | zero =>
          cases bytes_written with
          | zero => simp [write_raw_loop]
          | succ w => simp [write_raw_loop]
      | succ n =>
          simp [write_raw_loop, ih n (bytes_written + 1)]

/-! ### Concrete instances used by witnesses and counterexamples -/

/-- Reset-like line control value. -/
def lcrh0 : LCRH := { fen := false, pen := false, eps := false, stp2 := false, wlen := 0 }

/-- Reset-like control value. -/
def cr0 : CR := { uarten := false, txe := false, rxe := false, ctsen := false, rtsen := false }

/-- Reset-like DMA control value. -/
def dmacr0 : DMACR := { txdmae := false, rxdmae := false }

/-- A concrete register file. -/
def dev0 : Device :=
  { uartibrd := 0, uartfbrd := 0, uartlcr_h := lcrh0, uartcr := cr0, uartdmacr := dmacr0 }

/-- A concrete pin set with TX and RX wired, CTS and RTS absent. -/
def pins0 : Pinout :=
  { tx_enabled := true, rx_enabled := true, cts_enabled := false, rts_enabled := false }

/-- The 9600-baud, 8-N-1 configuration. -/
def cfg0 : UartConfig :=
  { baudrate := 9600, data_bits := DataBits.Eight, stop_bits := StopBits.One, parity := none }

/-- A concrete disabled peripheral handle. -/
def peri0 : UartPeripheral UState.Disabled :=
  { device := dev0, pins := pins0, config := cfg0, effective_baudrate := 0 }

/-- A second disabled handle over a register file that differs from
`peri0`'s in the integer divider register. -/
def periB : UartPeripheral UState.Disabled :=
  { device := { dev0 with uartibrd := 1 }, pins := pins0, config := cfg0,
    effective_baudrate := 0 }

/-- A configuration requesting the invalid baud rate zero. -/
def cfgZero : UartConfig :=
  { baudrate := 0, data_bits := DataBits.Eight, stop_bits := StopBits.One, parity := none }

/-- The handle `enable peri0 cfg0 125000000` produces: dividers
`(813, 51)`, effective rate `9600`, all registers programmed. -/
def periE0 : UartPeripheral UState.Enabled :=
  { device :=
      { uartibrd := 813, uartfbrd := 51,
        uartlcr_h := { fen := true, pen := false, eps := false, stp2 := false, wlen := 3 },
        uartcr := { uarten := true, txe := true, rxe := true, ctsen := false, rtsen := false },
        uartdmacr := { txdmae := true, rxdmae := true } },
    pins := pins0, config := cfg0, effective_baudrate := 9600 }

/-- The write trace `enable peri0 cfg0 125000000` produces. -/
def tr0 : List WriteEvent :=
  [WriteEvent.ibrd 813, WriteEvent.fbrd 51, WriteEvent.lcrh lcrh0,
   WriteEvent.lcrh { fen := true, pen := false, eps := false, stp2 := false, wlen := 3 },
   WriteEvent.cr { uarten := true, txe := true, rxe := true, ctsen := false, rtsen := false },
   WriteEvent.dmacr { txdmae := true, rxdmae := true }]

/-! ### Claims -/

/-- **C1**: for every desired baud rate `R > 0` and reference frequency
`F` with `F * 8` representable in `u32`, the divider calculation
computes `raw = F * 8 / R`, `int_part = raw >>> 7`,
`frac_part = ((raw &&& 0x7F) + 1) / 2`, and returns `(1, 0)` when
`int_part = 0`, `(65535, 0)` when `int_part ≥ 65535`, and
`(int_part, frac_part)` otherwise. -/
theorem C1_divider_formula (frequency baudrate : Nat)
    (h1 : frequency * 8 < 2 ^ 32) (h2 : 0 < baudrate) :
    calculate_baudrate_dividers baudrate frequency =
      Except.ok
        (if (frequency * 8 / baudrate) >>> 7 = 0 then (1, 0)
         else if 65535 ≤ (frequency * 8 / baudrate) >>> 7 then (65535, 0)
         else ((frequency * 8 / baudrate) >>> 7,
               (((frequency * 8 / baudrate) &&& 0x7F) + 1) / 2)) :=
  calc_ok_eq frequency baudrate h1 h2

/-- Witness for **C1**: 125 MHz reference, 9600 baud gives `(813, 51)`. -/
theorem C1_witness :
    calculate_baudrate_dividers 9600 125000000 = Except.ok (813, 51) := by
  have h := C1_divider_formula 125000000 9600 (by norm_num) (by norm_num)
  exact h.trans (by rfl)

/-- **C2** (amended): for representable inputs the returned pair
satisfies `int_div ∈ [1, 65535]`, `frac_div ∈ [0, 64]` (64 is reachable,
not 63 as claimed), and `int_div = 65535` forces `frac_div = 0`. -/
theorem C2_divider_range (frequency baudrate : Nat)
    (h1 : frequency * 8 < 2 ^ 32) (h2 : 0 < baudrate) :
    ∃ d : Nat × Nat, calculate_baudrate_dividers baudrate frequency = Except.ok d ∧
      1 ≤ d.1 ∧ d.1 ≤ 65535 ∧ d.2 ≤ 64 ∧ (d.1 = 65535 → d.2 = 0) := by
  refine ⟨_, calc_ok_eq frequency baudrate h1 h2, ?_⟩
  have hf := frac_part_le (frequency * 8 / baudrate)
  split_ifs with hz hm
  · exact ⟨by decide, by decide, by decide, by decide⟩
  · exact ⟨by decide, by decide, by decide, by decide⟩
  · refine ⟨?_, ?_, ?_, ?_⟩
    · show 1 ≤ (frequency * 8 / baudrate) >>> 7
      exact Nat.pos_of_ne_zero hz
    · show (frequency * 8 / baudrate) >>> 7 ≤ 65535
      exact Nat.le_of_lt (Nat.not_le.mp hm)
    · exact hf
    · intro hcontra
      have h65 : (frequency * 8 / baudrate) >>> 7 = 65535 := hcontra
      exact absurd (le_of_eq h65.symm) hm

/-- Witness for **C2** (amended) at 125 MHz, 9600 baud. -/
theorem C2_witness :
    ∃ d : Nat × Nat, calculate_baudrate_dividers 9600 125000000 = Except.ok d ∧
      1 ≤ d.1 ∧ d.1 ≤ 65535 ∧ d.2 ≤ 64 ∧ (d.1 = 65535 → d.2 = 0) :=
  C2_divider_range 125000000 9600 (by norm_num) (by norm_num)

/-- Counterexample to **C2** as stated: at frequency 255 and baud rate 8
the raw divider is 255, so the fractional part is `((255 &&& 0x7F) + 1)
/ 2 = 64`, outside the claimed range `[0, 63]`. -/
theorem C2_counterexample :
    calculate_baudrate_dividers 8 255 = Except.ok (1, 64) ∧ ¬(64 : Nat) ≤ 63 :=
  ⟨rfl, by omega⟩

/-- **C3**: the divider calculation (and hence `enable`) fails with
`BadArgument` exactly when `frequency * 8` overflows `u32` or the
requested baud rate is zero; for all other inputs it succeeds. -/
theorem C3_error_condition (self : UartPeripheral UState.Disabled) (config : UartConfig)
    (frequency : Nat) :
    (calculate_baudrate_dividers config.baudrate frequency = Except.error Error.BadArgument ↔
      2 ^ 32 ≤ frequency * 8 ∨ config.baudrate = 0) ∧
    (enable self config frequency = RResult.err Error.BadArgument ↔
      2 ^ 32 ≤ frequency * 8 ∨ config.baudrate = 0) :=
  ⟨calc_err_iff frequency config.baudrate, enable_err_iff self config frequency⟩

/-- **C4** (code bug): the source computes the effective-rate divisor
`64 * baud_div_int + baud_div_frac` in `u16` arithmetic, which wraps
modulo 65536 once `baud_div_int ≥ 1024`.  At 300 baud from a 125 MHz
reference the dividers are `(26041, 43)`; the exact divisor is 1666667
and the spec's formula gives 299 baud, but the wrapped divisor is 28267
and the code returns 17688.  At 1 baud from a 16384 Hz reference the
dividers are `(1024, 0)`, the wrapped divisor is 0, and the division
panics, while the spec's formula gives 1. -/
theorem C4_effective_bug :
    (∃ d tr, configure_baudrate dev0 300 125000000 = RResult.ok (17688, d, tr)) ∧
    calculate_baudrate_dividers 300 125000000 = Except.ok (26041, 43) ∧
    effective_baud_spec 125000000 26041 43 = 299 ∧
    configure_baudrate dev0 1 16384 = RResult.panicked ∧
    calculate_baudrate_dividers 1 16384 = Except.ok (1024, 0) ∧
    effective_baud_spec 16384 1024 0 = 1 :=
  ⟨⟨_, _, rfl⟩, rfl, rfl, rfl, rfl, rfl⟩

/-- Counterexample to **C5** as stated: the error path cannot return
ownership of the register interface and pins, because the error value
`Error.BadArgument` carries no data — no recovery function can map it
back to the original device and pins of every failing handle, since two
handles with different register files fail with identical errors. -/
theorem C5_counterexample :
    ¬∃ recover : Error → Device × Pinout,
        ∀ (self : UartPeripheral UState.Disabled) (config : UartConfig) (frequency : Nat),
          enable self config frequency = RResult.err Error.BadArgument →
          recover Error.BadArgument = (self.device, self.pins) := by
  rintro ⟨recover, hrec⟩
  have hA := hrec peri0 cfgZero 0 rfl
  have hB := hrec periB cfgZero 0 rfl
  rw [hA] at hB
  have hdev : peri0.device = periB.device := congrArg Prod.fst hB
  have h01 : (0 : Nat) = 1 := congrArg Device.uartibrd hdev
  simp at h01

/-- **C5** (amended): a failed `enable` consumes the handle; the error
path carries only the data-free `Error.BadArgument` value, so the
device and pins are dropped, not returned to the caller. -/
theorem C5_enable_consumes (self : UartPeripheral UState.Disabled) (config : UartConfig)
    (frequency : Nat) (h : 2 ^ 32 ≤ frequency * 8 ∨ config.baudrate = 0) :
    enable self config frequency = RResult.err Error.BadArgument :=
  enable_err_of_cond self config frequency h

/-- Witness for **C5** (amended): a zero baud rate makes `enable` fail. -/
theorem C5_witness : enable peri0 cfgZero 0 = RResult.err Error.BadArgument :=
  C5_enable_consumes peri0 cfgZero 0 (Or.inr rfl)

/-- **C6**: a successful `enable` writes, in order: the integer divider,
the fractional divider, a dummy write-back of the line-control register
with exactly the value it already holds, the line-control register with
FIFO enable plus the encoded format, the control register with the
peripheral enable set and TX/RX/CTS/RTS gated on the pin capabilities,
and the DMA control register with both request enables set. -/
theorem C6_write_sequence (self : UartPeripheral UState.Disabled) (config : UartConfig)
    (frequency : Nat) (p : UartPeripheral UState.Enabled) (tr : List WriteEvent)
    (h : enable self config frequency = RResult.ok (p, tr)) :
    ∃ i f, calculate_baudrate_dividers config.baudrate frequency = Except.ok (i, f) ∧
      tr = [WriteEvent.ibrd i, WriteEvent.fbrd f,
            WriteEvent.lcrh self.device.uartlcr_h,
            WriteEvent.lcrh (set_format
              { fen := true, pen := false, eps := false, stp2 := false, wlen := 0 }
              config.data_bits config.stop_bits config.parity),
            WriteEvent.cr { uarten := true, txe := self.pins.tx_enabled,
                            rxe := self.pins.rx_enabled, ctsen := self.pins.cts_enabled,
                            rtsen := self.pins.rts_enabled },
            WriteEvent.dmacr { txdmae := true, rxdmae := true }] := by
  cases hc : calculate_baudrate_dividers config.baudrate frequency with
  | error e =>
      exfalso
      cases e
      simp only [enable, free] at h
      rw [configure_err self.device config.baudrate frequency hc] at h
      simp at h
  | ok df =>
      obtain ⟨i, f⟩ := df
      refine ⟨i, f, rfl, ?_⟩
      by_cases hd : (64 * i + f) % 65536 = 0
      · exfalso
        simp only [enable, free] at h
        rw [configure_panic self.device config.baudrate frequency i f hc hd] at h
        simp at h
      · simp only [enable, free] at h
        rw [configure_spec self.device config.baudrate frequency i f hc hd] at h
        simp only [RResult.ok.injEq, Prod.mk.injEq] at h
        obtain ⟨hp, htr⟩ := h
        rw [← htr]
        rfl

/-- Witness for **C6**: enabling `peri0` with the 9600-baud 8-N-1
configuration from a 125 MHz reference produces exactly the six writes
of `tr0`, the third being the dummy write-back of the unchanged
line-control value. -/
theorem C6_witness :
    ∃ i f, calculate_baudrate_dividers 9600 125000000 = Except.ok (i, f) ∧
      tr0 = [WriteEvent.ibrd i, WriteEvent.fbrd f,
             WriteEvent.lcrh lcrh0,
             WriteEvent.lcrh { fen := true, pen := false, eps := false, stp2 := false,
                               wlen := 3 },
             WriteEvent.cr { uarten := true, txe := true, rxe := true, ctsen := false,
                             rtsen := false },
             WriteEvent.dmacr { txdmae := true, rxdmae := true }] :=
  C6_write_sequence peri0 cfg0 125000000 periE0 tr0 rfl

/-- **C7**: the format encoder is a total pure mapping: data bits
5/6/7/8 map to word-length codes 0/1/2/3, one stop bit clears and two
stop bits set `stp2`, `None` clears `pen`, `Some(Odd)` sets `pen` and
clears `eps`, `Some(Even)` sets `pen` and sets `eps`; the FIFO-enable
bit is never touched. -/
theorem C7_set_format_map (w : LCRH) (data_bits : DataBits) (stop_bits : StopBits)
    (parity : Option Parity) :
    (set_format w data_bits stop_bits parity).wlen =
        (match data_bits with
         | DataBits.Five => 0
         | DataBits.Six => 1
         | DataBits.Seven => 2
         | DataBits.Eight => 3) ∧
    (set_format w data_bits stop_bits parity).stp2 =
        (match stop_bits with
         | StopBits.One => false
         | StopBits.Two => true) ∧
    (set_format w data_bits stop_bits parity).pen =
        (match parity with
         | none => false
         | some _ => true) ∧
    (set_format w data_bits stop_bits parity).eps =
        (match parity with
         | none => w.eps
         | some Parity.Odd => false
         | some Parity.Even => true) ∧
    (set_format w data_bits stop_bits parity).fen = w.fen := by
  obtain _ | p := parity
  · cases data_bits <;> cases stop_bits <;> exact ⟨rfl, rfl, rfl, rfl, rfl⟩
  · cases p <;> cases data_bits <;> cases stop_bits <;> exact ⟨rfl, rfl, rfl, rfl, rfl⟩

/-- **C8** (amended): on a FIFO with `fifo_free` free slots, `write_raw`
returns `WouldBlock` exactly when the FIFO is full and the buffer is
nonempty; otherwise it succeeds with the remainder `data.drop
fifo_free`, whose length is `data.length - fifo_free` (so an empty
buffer succeeds with an empty remainder even on a full FIFO). -/
theorem C8_write_raw (fifo_free : Nat) (data : List Nat) :
    write_raw fifo_free data =
      (if fifo_free = 0 ∧ data ≠ [] then NbResult.wouldBlock
       else NbResult.ok (List.drop fifo_free data)) ∧
    (List.drop fifo_free data).length = data.length - fifo_free := by
  constructor
  · rw [write_raw, write_raw_loop_eq]
    simp
  · simp

/-- Counterexample to **C8** as stated: with zero free slots and an
empty buffer the write succeeds with an empty remainder (the loop never
consults the FIFO), rather than returning `WouldBlock` as the claim's
`N = 0` case demands for every buffer length. -/
theorem C8_counterexample :
    write_raw 0 ([] : List Nat) = NbResult.ok [] ∧
      write_raw 0 ([] : List Nat) ≠ NbResult.wouldBlock :=
  ⟨rfl, by decide⟩

/-- **C9**: `join` applied to the pair produced by `split` returns the
original `Enabled` handle — the same register file, pins, configuration
and effective baud rate — and discards the writer half entirely (any
writer yields the same result). -/
theorem C9_join_split (h : UartPeripheral UState.Enabled) (w : Writer) :
    join (split h).1 w = h ∧ join (split h).1 (split h).2 = h :=
  ⟨rfl, rfl⟩

/-- **C10**: `free`, callable in either state, returns exactly the owned
register file and pin set with every register unchanged; in particular
the UART-enable bit is left exactly as it was, so freeing an enabled
peripheral does not disable it. -/
theorem C10_free_frame (S : UState) (h : UartPeripheral S) :
    free h = (h.device, h.pins) ∧ (free h).1.uartcr.uarten = h.device.uartcr.uarten :=
  ⟨rfl, rfl⟩

end Uart
